import Mathlib

/-
Verification of the BlockCopier engine (FileBackup repository).

Shallow embedding of the core engine code:
  - src/FileBackup/src/IOUtils.cpp     (IssueRead, IssueWrite, OnReadCompletion,
                                        OnWriteCompletion)
  - src/FileBackup/src/BlockCopier.cpp (Initialize, StartCopy)

Machine integers are modelled as Nat (DWORD) and Int (LONGLONG, int), with an
explicit mod 2^32 wherever 32-bit unsigned overflow matters.  Calls into the
operating system (ReadFileEx, WriteFileEx, CreateFileW, FlushFileBuffers,
VirtualAlloc, the size and sector-size probes) are modelled by oracle
parameters giving the outcome of the call, since the engine only branches on
those outcomes.  The concurrent engine is modelled by its sequential small
steps on an explicit shared-state record; the offset allocator is exercised by
iterating the claim step, which is faithful because every concurrent history
of fetch-and-add claims produces exactly the same multiset of claimed offsets.
-/

namespace BlockCopier

/-- Windows error code ERROR_SUCCESS. -/
def ERROR_SUCCESS : Nat := 0

/-- Windows error code ERROR_HANDLE_EOF. -/
def ERROR_HANDLE_EOF : Nat := 38

/-- The shared mutable engine state: the four IOUtils atomics
(m_fileOffset, m_pendingIOs, m_readComplete, m_errOccurred, IOUtils.h lines
45-48) together with the BlockCopier progress counters m_bytesReadTotal and
m_bytesWrittenTotal.  m_fileOffset is a LONGLONG and m_pendingIOs an int;
both are modelled as Int. -/
structure EngineState where
  fileOffset : Int
  pendingIOs : Int
  readComplete : Bool
  errOccurred : Bool
  bytesReadTotal : Int
  bytesWrittenTotal : Int
deriving DecidableEq, Repr

/-- The state set up by StartCopy before launching workers
(BlockCopier.cpp lines 213-218): offset 0, no pending I/O, flags cleared. -/
def initialState : EngineState :=
  { fileOffset := 0, pendingIOs := 0, readComplete := false,
    errOccurred := false, bytesReadTotal := 0, bytesWrittenTotal := 0 }

/-- Per-operation context (IOContext, IOUtils.h lines 11-41).  The buffer is a
list of byte values; bufSize is the DWORD buffer length; readOffset is the
LONGLONG source offset captured at read submission (also standing for the
OVERLAPPED submission offset, which the code keeps equal to it);
bytesTransferred is the DWORD padded write length; completed is the atomic
completion flag. -/
structure IOContext where
  buf : List Nat
  bufSize : Nat
  readOffset : Int
  bytesTransferred : Nat
  completed : Bool
deriving DecidableEq, Repr

/-- The claim step of IssueRead (IOUtils.cpp lines 49-72): bail out if
readComplete or errOccurred; otherwise fetch-and-add blockSize on fileOffset,
returning the previous value as the claimed offset; offsets at or past
totalFileSize set readComplete and claim nothing; otherwise the read length
is blockSize truncated to the remaining bytes.  The result is the updated
shared state and the claimed (offset, length) pair, if any. -/
def issueReadClaim (s : EngineState) (blockSize : Nat) (totalFileSize : Int) :
    EngineState × Option (Int × Nat) :=
  if s.readComplete || s.errOccurred then (s, none)
  else
    let curOffset := s.fileOffset
    let s1 := { s with fileOffset := curOffset + blockSize }
    if totalFileSize ≤ curOffset then
      ({ s1 with readComplete := true }, none)
    else
      let bytesToRead : Nat :=
        if totalFileSize < curOffset + blockSize then (totalFileSize - curOffset).toNat
        else blockSize
      if bytesToRead = 0 then ({ s1 with readComplete := true }, none)
      else (s1, some (curOffset, bytesToRead))

/-- Result of IssueRead: updated shared state and context, the boolean return
value, and the (offset, length) pair passed to ReadFileEx when submission was
attempted. -/
structure ReadIssueResult where
  st : EngineState
  cntxt : IOContext
  ret : Bool
  claimed : Option (Int × Nat)
deriving DecidableEq, Repr

/-- IOUtils::IssueRead (IOUtils.cpp lines 46-98).  submitErr is the outcome of
the ReadFileEx call: none means the submission was accepted; some err means it
failed immediately with GetLastError() = err, in which case ERROR_HANDLE_EOF
sets readComplete and any other code sets errOccurred, and pendingIOs is
decremented again (lines 83-95). -/
def issueRead (s : EngineState) (c : IOContext) (blockSize : Nat)
    (totalFileSize : Int) (submitErr : Option Nat) : ReadIssueResult :=
  match issueReadClaim s blockSize totalFileSize with
  | (s1, none) => ⟨s1, c, false, none⟩
  | (s1, some (curOffset, bytesToRead)) =>
      let c1 := { c with completed := false, readOffset := curOffset,
                         bytesTransferred := 0 }
      let s2 := { s1 with pendingIOs := s1.pendingIOs + 1 }
      match submitErr with
      | none => ⟨s2, c1, true, some (curOffset, bytesToRead)⟩
      | some err =>
          let s3 :=
            if err ≠ ERROR_HANDLE_EOF then { s2 with errOccurred := true }
            else { s2 with readComplete := true }
          ⟨{ s3 with pendingIOs := s3.pendingIOs - 1 }, c1, false,
            some (curOffset, bytesToRead)⟩

/-- Iterated claim steps: the list of (offset, length) claims made by n
consecutive invocations of the claim step of IssueRead, in order. -/
def runClaims (blockSize : Nat) (totalFileSize : Int) :
    Nat → EngineState → List (Int × Nat)
  | 0, _ => []
  | n + 1, s =>
      match issueReadClaim s blockSize totalFileSize with
      | (s1, none) => runClaims blockSize totalFileSize n s1
      | (s1, some p) => p :: runClaims blockSize totalFileSize n s1

/-- Two claims are interval-disjoint when no byte index lies in both
half-open claimed ranges. -/
def intervalsDisjoint (p q : Int × Nat) : Prop :=
  ∀ x : Int, ¬ (p.1 ≤ x ∧ x < p.1 + p.2 ∧ q.1 ≤ x ∧ x < q.1 + q.2)

/-- Result of IssueWrite: updated shared state and context and the boolean
return value. -/
structure WriteIssueResult where
  st : EngineState
  cntxt : IOContext
  ret : Bool
deriving DecidableEq, Repr

/-- IOUtils::IssueWrite (IOUtils.cpp lines 101-129).  Bails out returning
false if errOccurred is already set (lines 104-107, without touching
pendingIOs); otherwise clears the context completed flag, increments
pendingIOs, and attempts WriteFileEx.  submitOk is the outcome of the
WriteFileEx call; on immediate failure errOccurred is set and pendingIOs
decremented again (lines 118-126); the completed flag is not touched on that
path. -/
def issueWrite (s : EngineState) (c : IOContext) (bytesToWrite : Nat)
    (submitOk : Bool) : WriteIssueResult :=
  if s.errOccurred then ⟨s, c, false⟩
  else
    let c1 := { c with completed := false }
    let s1 := { s with pendingIOs := s.pendingIOs + 1 }
    if submitOk then ⟨s1, c1, true⟩
    else ⟨{ s1 with errOccurred := true, pendingIOs := s1.pendingIOs - 1 },
          c1, false⟩

/-- memset(buf + start, 0, len): zero-fill len bytes of the buffer starting
at index start. -/
def memsetZero (buf : List Nat) (start len : Nat) : List Nat :=
  buf.take start ++ List.replicate len 0 ++ buf.drop (start + len)

/-- Result of OnReadCompletion: updated shared state and context, and the
DWORD byte count passed to IssueWrite when the handler reached the write
issuance (none when it returned before that point). -/
structure ReadCompletionResult where
  st : EngineState
  cntxt : IOContext
  writeCall : Option Nat
deriving DecidableEq, Repr

/-- IOUtils::OnReadCompletion (IOUtils.cpp lines 134-197), for a completion
delivered with error code errCode and transferred byte count bytes.
destSectorSize is the engine value returned by getDestSectorSize();
writeSubmitOk is the outcome of the WriteFileEx call inside the nested
IssueWrite.  Decrements pendingIOs; non-EOF errors set errOccurred; EOF sets
readComplete only when bytes = 0; a successful completion of 0 bytes sets
readComplete; otherwise the transferred count is added to bytesReadTotal, the
write length is padded to the destination sector size (with 4096 substituted
when the sector size is 0), the padding bytes are zero-filled, and the write
is issued; a false return from IssueWrite sets errOccurred (lines 192-195).
The DWORD additions bytesToWritePadded + padding are taken mod 2^32. -/
def onReadCompletion (s : EngineState) (c : IOContext) (errCode : Nat)
    (bytes : Nat) (destSectorSize : Nat) (writeSubmitOk : Bool) :
    ReadCompletionResult :=
  let s0 := { s with pendingIOs := s.pendingIOs - 1 }
  if errCode ≠ ERROR_SUCCESS then
    if errCode ≠ ERROR_HANDLE_EOF then
      ⟨{ s0 with errOccurred := true }, { c with completed := true }, none⟩
    else
      let s1 := if bytes = 0 then { s0 with readComplete := true } else s0
      ⟨s1, { c with completed := true }, none⟩
  else if bytes = 0 then
    ⟨{ s0 with readComplete := true }, { c with completed := true }, none⟩
  else
    let s1 := { s0 with bytesReadTotal := s0.bytesReadTotal + bytes }
    let sector := if destSectorSize = 0 then 4096 else destSectorSize
    if bytes % sector ≠ 0 then
      let padding := sector - bytes % sector
      if c.bufSize < (bytes + padding) % 4294967296 then
        ⟨{ s1 with errOccurred := true }, { c with completed := true }, none⟩
      else
        let padded := (bytes + padding) % 4294967296
        let c1 := { c with buf := memsetZero c.buf bytes padding,
                           bytesTransferred := padded }
        let w := issueWrite s1 c1 padded writeSubmitOk
        if w.ret then ⟨w.st, w.cntxt, some padded⟩
        else ⟨{ w.st with errOccurred := true }, w.cntxt, some padded⟩
    else
      let c1 := { c with bytesTransferred := bytes }
      let w := issueWrite s1 c1 bytes writeSubmitOk
      if w.ret then ⟨w.st, w.cntxt, some bytes⟩
      else ⟨{ w.st with errOccurred := true }, w.cntxt, some bytes⟩

/-- IOUtils::OnWriteCompletion (IOUtils.cpp lines 199-219): decrement
pendingIOs, set errOccurred on a nonzero completion code, add the transferred
count to bytesWrittenTotal, set the context completed flag. -/
def onWriteCompletion (s : EngineState) (c : IOContext) (errCode : Nat)
    (bytes : Nat) : EngineState × IOContext :=
  let s0 := { s with pendingIOs := s.pendingIOs - 1 }
  let s1 := if errCode ≠ ERROR_SUCCESS then { s0 with errOccurred := true }
            else s0
  ({ s1 with bytesWrittenTotal := s1.bytesWrittenTotal + bytes },
   { c with completed := true })

/-- Conversion of a C++ int to DWORD: reduction mod 2^32 of the two's
complement value. -/
def dwordOfInt (x : Int) : Nat := (x % 4294967296).toNat

/-- m_blockSize = static_cast<DWORD>(blockSizeMB) * 1024 * 1024
(BlockCopier.cpp line 75), computed in 32-bit unsigned arithmetic. -/
def blockSizeBytes (blockSizeMB : Int) : Nat :=
  (dwordOfInt blockSizeMB * 1024 * 1024) % 4294967296

/-- The distinct failure exits of BlockCopier::Initialize, in source order. -/
inductive InitFailure where
  | badThreadCount
  | badBlockSize
  | srcOpenFailed
  | destOpenFailed
  | srcSizeUnknown
  | destCapacityUnknown
  | capacityTooSmall
  | sectorDeclined
  | blockNotSectorMultiple
  | bufferAllocFailed
  | bufferMisaligned
deriving DecidableEq, Repr

/-- The engine configuration produced by a successful Initialize. -/
structure InitResult where
  blockSize : Nat
  srcFileSize : Int
  destCapacity : Int
  destSectorSize : Nat
deriving DecidableEq, Repr

/-- Outcomes of the operating-system calls made by Initialize: whether the
two CreateFileW calls succeed, the GetDiskOrDriveSize results for source and
destination (0 is the failure sentinel), the GetVolumeSectorSize result for
the destination (0 means the query failed), the interactive console choice
taken when that query fails (true = proceed with 4096), and for each
IOContext whether its VirtualAlloc succeeded and at which address. -/
structure InitEnv where
  srcOpenOk : Bool
  destOpenOk : Bool
  srcSize : Int
  destCapacity : Int
  sectorSizeQuery : Nat
  userProceeds : Bool
  buffers : List (Bool × Nat)
deriving DecidableEq, Repr

/-- The per-context buffer checks of Initialize (BlockCopier.cpp lines
179-197): a failed allocation aborts, then a buffer address that is not a
multiple of the destination sector size aborts. -/
def checkBuffers (sector : Nat) : List (Bool × Nat) → Option InitFailure
  | [] => none
  | (ok, addr) :: rest =>
      if ok = false then some .bufferAllocFailed
      else if addr % sector ≠ 0 then some .bufferMisaligned
      else checkBuffers sector rest

/-- BlockCopier::Initialize (BlockCopier.cpp lines 72-200).  The checks in
source order: thread count in [1, 64]; block size nonzero (m_blockSize is a
DWORD, so the source test m_blockSize <= 0 rejects exactly 0); source and
destination handles open; source size and destination capacity probes
nonzero (0 is their failure sentinel); destination capacity at least the
source size; destination sector size (on a failed query the user either
declines, aborting, or accepts the 4096 fallback); block size a multiple of
the sector size; per-context buffer allocation and alignment. -/
def initCopier (nThreads : Int) (blockSizeMB : Int) (env : InitEnv) :
    Except InitFailure InitResult :=
  let blockSize := blockSizeBytes blockSizeMB
  if nThreads ≤ 0 ∨ 64 < nThreads then .error .badThreadCount
  else if blockSize = 0 then .error .badBlockSize
  else if env.srcOpenOk = false then .error .srcOpenFailed
  else if env.destOpenOk = false then .error .destOpenFailed
  else if env.srcSize = 0 then .error .srcSizeUnknown
  else if env.destCapacity = 0 then .error .destCapacityUnknown
  else if env.destCapacity < env.srcSize then .error .capacityTooSmall
  else
    match (if env.sectorSizeQuery = 0 then
             (if env.userProceeds then some 4096 else none)
           else some env.sectorSizeQuery) with
    | none => .error .sectorDeclined
    | some sector =>
        if blockSize % sector ≠ 0 then .error .blockNotSectorMultiple
        else
          match checkBuffers sector (env.buffers.take nThreads.toNat) with
          | some f => .error f
          | none => .ok ⟨blockSize, env.srcSize, env.destCapacity, sector⟩

/-- The condition of the monitoring loop of StartCopy (BlockCopier.cpp lines
235-236): the controller keeps waiting while there are pending I/Os or reads
still to issue, and no error has occurred.  The loop has exited exactly when
this is false. -/
def monitorLoopRunning (s : EngineState) : Bool :=
  (decide (0 < s.pendingIOs) || !s.readComplete) && !s.errOccurred

/-- The wake-up phase of StartCopy (BlockCopier.cpp lines 260-283): the list
of worker indices to which the no-op APC is queued after the monitoring loop
exits.  The whole loop over workers is guarded by errOccurred being false;
inside it, the APC is queued to every still-joinable worker.  joinable gives,
per worker index, whether the thread is still joinable. -/
def wakeupTargets (s : EngineState) (joinable : List Bool) : List Nat :=
  if s.errOccurred then []
  else (List.range joinable.length).filter (fun i => joinable.getD i false)

/-- The final phase of StartCopy (BlockCopier.cpp lines 296-315): flush the
destination, setting errOccurred if the flush fails, then return true exactly
when errOccurred is false.  flushOk is the outcome of FlushFileBuffers.
The result is the boolean return value of StartCopy and the final state. -/
def startCopyFinish (s : EngineState) (flushOk : Bool) : Bool × EngineState :=
  let s1 := if flushOk then s else { s with errOccurred := true }
  (!s1.errOccurred, s1)

/-- The offset-allocator contract for block size b and total source size T:
the claim step performs a single fetch-and-add of b, reporting EOF (and
setting readComplete) when the claimed offset is at or past T and otherwise
claiming a read of length min(b, T - offset); IssueRead returns no read in
the EOF case; and over any sequence of claims from the reset state every
claimed offset is a multiple of b and the claimed intervals are pairwise
disjoint. -/
def offsetAllocatorSpec (b : Nat) (T : Int) : Prop :=
  (∀ s : EngineState, s.readComplete = false → s.errOccurred = false →
    (T ≤ s.fileOffset →
      issueReadClaim s b T =
        ({ s with fileOffset := s.fileOffset + b, readComplete := true },
         none)) ∧
    (s.fileOffset < T →
      issueReadClaim s b T =
        ({ s with fileOffset := s.fileOffset + b },
         some (s.fileOffset, min b (T - s.fileOffset).toNat)))) ∧
  (∀ (c : IOContext) (submitErr : Option Nat) (s : EngineState),
    s.readComplete = false → s.errOccurred = false → T ≤ s.fileOffset →
      (issueRead s c b T submitErr).ret = false ∧
      (issueRead s c b T submitErr).st.readComplete = true) ∧
  (∀ n : Nat,
    (∀ p ∈ runClaims b T n initialState, (b : Int) ∣ p.1) ∧
    (runClaims b T n initialState).Pairwise intervalsDisjoint)

/-- The padding conclusions of the read-completion handler for a successful
read of n bytes: the handler reaches the write issuance with a padded length
p that is the least multiple of the sector size at least n, stores it in the
context, does not set errOccurred, and zero-fills buffer bytes [n, p). -/
def paddingSpec (s : EngineState) (c : IOContext) (n sector : Nat) : Prop :=
  ∃ p, (onReadCompletion s c ERROR_SUCCESS n sector true).writeCall = some p ∧
    (onReadCompletion s c ERROR_SUCCESS n sector true).cntxt.bytesTransferred
      = p ∧
    n ≤ p ∧ p ≤ c.bufSize ∧ sector ∣ p ∧
    (∀ q, sector ∣ q → n ≤ q → p ≤ q) ∧
    (onReadCompletion s c ERROR_SUCCESS n sector true).st.errOccurred
      = s.errOccurred ∧
    (onReadCompletion s c ERROR_SUCCESS n sector true).cntxt.buf.length
      = c.buf.length ∧
    (∀ i, n ≤ i → i < p →
      (onReadCompletion s c ERROR_SUCCESS n sector true).cntxt.buf.getD i 1
        = 0)

/-- The effects of IssueWrite when submission is attempted from a state with
no prior error: on immediate failure errOccurred is set, pendingIOs is
incremented and then decremented back, and the context completed flag is left
false; on success pendingIOs stays incremented and the completed flag is
likewise false. -/
def issueWriteFailureSpec (s : EngineState) (c : IOContext) (bytes : Nat) :
    Prop :=
  issueWrite s c bytes false =
    ⟨{ s with pendingIOs := s.pendingIOs + 1 - 1, errOccurred := true },
     { c with completed := false }, false⟩ ∧
  (issueWrite s c bytes false).st.pendingIOs = s.pendingIOs ∧
  (issueWrite s c bytes false).cntxt.completed = false ∧
  issueWrite s c bytes true =
    ⟨{ s with pendingIOs := s.pendingIOs + 1 },
     { c with completed := false }, true⟩

/-- The padded-write conclusions of the read-completion handler when the
engine sector size is 0: the handler reaches the write issuance with a
length that is a multiple of the fallback value 4096 and does not set
errOccurred. -/
def fallbackPaddedSpec (s : EngineState) (c : IOContext) (bytes : Nat) :
    Prop :=
  ∃ p, (onReadCompletion s c ERROR_SUCCESS bytes 0 true).writeCall = some p ∧
    4096 ∣ p ∧
    (onReadCompletion s c ERROR_SUCCESS bytes 0 true).st.errOccurred
      = s.errOccurred

theorem memsetZero_length (buf : List Nat) (start len : Nat)
    (h : start + len ≤ buf.length) :
    (memsetZero buf start len).length = buf.length := by
  simp only [memsetZero, List.length_append, List.length_take,
    List.length_replicate, List.length_drop]
  omega

theorem memsetZero_getD_zero (buf : List Nat) (start len i : Nat)
    (h1 : start ≤ i) (h2 : i < start + len) (h3 : start + len ≤ buf.length) :
    (memsetZero buf start len).getD i 1 = 0 := by
  have htk : (buf.take start).length = start := by
    simp only [List.length_take]; omega
  simp only [memsetZero, List.getD_eq_getElem?_getD, List.append_assoc]
  rw [List.getElem?_append_right (by omega), htk]
  rw [List.getElem?_append_left (by simp only [List.length_replicate]; omega)]
  rw [List.getElem?_replicate_of_lt (by omega)]
  rfl

theorem memsetZero_zero_len (buf : List Nat) (start : Nat) :
    memsetZero buf start 0 = buf := by
  simp [memsetZero]

theorem runClaims_nil_of_readComplete (b : Nat) (T : Int) :
    ∀ (n : Nat) (s : EngineState), s.readComplete = true →
      runClaims b T n s = []
  | 0, _, _ => rfl
  | n + 1, s, h => by
      have hcl : issueReadClaim s b T = (s, none) := by
        simp [issueReadClaim, h]
      simp only [runClaims, hcl]
      exact runClaims_nil_of_readComplete b T n s h


theorem runClaims_nil_of_err (b : Nat) (T : Int) :
    ∀ (n : Nat) (s : EngineState), s.errOccurred = true →
      runClaims b T n s = []
  | 0, _, _ => rfl
  | n + 1, s, h => by
      have hcl : issueReadClaim s b T = (s, none) := by
        simp [issueReadClaim, h]
      simp only [runClaims, hcl]
      exact runClaims_nil_of_err b T n s h

theorem issueReadClaim_eq_eof (s : EngineState) (b : Nat) (T : Int)
    (hrc : s.readComplete = false) (herr : s.errOccurred = false)
    (hT : T ≤ s.fileOffset) :
    issueReadClaim s b T =
      ({ s with fileOffset := s.fileOffset + b, readComplete := true },
       none) := by
  simp only [issueReadClaim, hrc, herr, Bool.or_self, Bool.false_eq_true,
    if_false, if_pos hT]

theorem issueReadClaim_eq_claim (s : EngineState) (b : Nat) (T : Int)
    (hb : 0 < b) (hrc : s.readComplete = false) (herr : s.errOccurred = false)
    (hT : s.fileOffset < T) :
    issueReadClaim s b T =
      ({ s with fileOffset := s.fileOffset + b },
       some (s.fileOffset, min b (T - s.fileOffset).toNat)) := by
  have hlen : (if T < s.fileOffset + (b : Int)
        then (T - s.fileOffset).toNat else b)
      = min b (T - s.fileOffset).toNat := by
    split <;> omega
  have hne : ¬ (min b (T - s.fileOffset).toNat = 0) := by omega
  simp only [issueReadClaim, hrc, herr, Bool.or_self, Bool.false_eq_true,
    if_false, if_neg (not_le.mpr hT), hlen, if_neg hne]

theorem runClaims_mem (b : Nat) (hb : 0 < b) (T : Int) :
    ∀ (n : Nat) (s : EngineState) (p : Int × Nat),
      p ∈ runClaims b T n s →
      s.readComplete = false → s.errOccurred = false →
        s.fileOffset ≤ p.1 ∧ p.2 ≤ b ∧
          ∃ k : Nat, p.1 = s.fileOffset + (k : Int) * b
  | 0, s, p, hp, _, _ => absurd hp (List.not_mem_nil p)
  | n + 1, s, p, hp, hrc, herr => by
      by_cases hT : T ≤ s.fileOffset
      · simp only [runClaims, issueReadClaim_eq_eof s b T hrc herr hT] at hp
        rw [runClaims_nil_of_readComplete b T n _ rfl] at hp
        exact absurd hp (List.not_mem_nil p)
      · push_neg at hT
        simp only [runClaims,
          issueReadClaim_eq_claim s b T hb hrc herr hT] at hp
        rcases List.mem_cons.mp hp with hph | hpt
        · subst hph
          refine ⟨le_refl _, min_le_left _ _, 0, by simp⟩
        · obtain ⟨h1, h2, k, hk⟩ :=
            runClaims_mem b hb T n _ p hpt hrc herr
          simp only at h1 hk
          refine ⟨by omega, h2, k + 1, ?_⟩
          rw [hk]
          push_cast
          ring

theorem runClaims_pairwise_ordered (b : Nat) (hb : 0 < b) (T : Int) :
    ∀ (n : Nat) (s : EngineState),
      s.readComplete = false → s.errOccurred = false →
      (runClaims b T n s).Pairwise (fun p q => p.1 + (b : Int) ≤ q.1)
  | 0, _, _, _ => List.Pairwise.nil
  | n + 1, s, hrc, herr => by
      by_cases hT : T ≤ s.fileOffset
      · simp only [runClaims, issueReadClaim_eq_eof s b T hrc herr hT]
        rw [runClaims_nil_of_readComplete b T n _ rfl]
        exact List.Pairwise.nil
      · push_neg at hT
        simp only [runClaims, issueReadClaim_eq_claim s b T hb hrc herr hT]
        refine List.Pairwise.cons ?_
          (runClaims_pairwise_ordered b hb T n _ hrc herr)
        intro q hq
        obtain ⟨h1, _, _⟩ := runClaims_mem b hb T n _ q hq hrc herr
        simp only at h1
        omega


theorem checkBuffers_ne_capacity (sector : Nat) :
    ∀ l, checkBuffers sector l ≠ some InitFailure.capacityTooSmall
  | [] => by simp [checkBuffers]
  | (ok, addr) :: rest => by
      simp only [checkBuffers]
      split
      · simp
      · split
        · simp
        · exact checkBuffers_ne_capacity sector rest

theorem onReadCompletion_padding_core (s : EngineState) (c : IOContext)
    (n sector : Nat) (hs : sector ≠ 0) (hdvd : sector ∣ c.bufSize)
    (hn : n ≠ 0) (hnB : n ≤ c.bufSize) (hB : c.bufSize < 4294967296)
    (herr : s.errOccurred = false) :
    ∃ p, (onReadCompletion s c ERROR_SUCCESS n sector true).writeCall
        = some p ∧
      (onReadCompletion s c ERROR_SUCCESS n sector true).cntxt.bytesTransferred
        = p ∧
      n ≤ p ∧ p ≤ c.bufSize ∧ sector ∣ p ∧
      (∀ q, sector ∣ q → n ≤ q → p ≤ q) ∧
      (onReadCompletion s c ERROR_SUCCESS n sector true).st.errOccurred
        = s.errOccurred ∧
      (onReadCompletion s c ERROR_SUCCESS n sector true).cntxt.buf
        = memsetZero c.buf n (p - n) := by
  obtain ⟨k, hk⟩ := hdvd
  by_cases hmod : n % sector = 0
  · have hres : onReadCompletion s c ERROR_SUCCESS n sector true =
        ⟨⟨s.fileOffset, s.pendingIOs - 1 + 1, s.readComplete, s.errOccurred,
          s.bytesReadTotal + n, s.bytesWrittenTotal⟩,
         ⟨c.buf, c.bufSize, c.readOffset, n, false⟩, some n⟩ := by
      simp [onReadCompletion, issueWrite, ERROR_SUCCESS, ERROR_HANDLE_EOF,
        hn, hs, hmod, herr]
    refine ⟨n, ?_⟩
    rw [hres]
    refine ⟨rfl, rfl, le_refl n, hnB, Nat.dvd_of_mod_eq_zero hmod,
      fun q _ hq => hq, rfl, ?_⟩
    rw [Nat.sub_self, memsetZero_zero_len]
  · have hdm : sector * (n / sector) + n % sector = n := Nat.div_add_mod n sector
    have hrlt : n % sector < sector := Nat.mod_lt _ (Nat.pos_of_ne_zero hs)
    have hrpos : 0 < n % sector := Nat.pos_of_ne_zero hmod
    have hmul1 : sector * (n / sector + 1) = sector * (n / sector) + sector := by
      ring
    have hpmul : n + (sector - n % sector) = sector * (n / sector + 1) := by
      omega
    have hdn : sector * (n / sector) < n := by omega
    have hdk : n / sector < k := by
      refine Nat.lt_of_mul_lt_mul_left (a := sector) ?_
      calc sector * (n / sector) < n := hdn
        _ ≤ sector * k := by rw [← hk]; exact hnB
    have hpB : n + (sector - n % sector) ≤ c.bufSize := by
      rw [hpmul, hk]
      exact Nat.mul_le_mul_left sector hdk
    have hplt : n + (sector - n % sector) < 4294967296 := lt_of_le_of_lt hpB hB
    have hpmod : (n + (sector - n % sector)) % 4294967296
        = n + (sector - n % sector) := Nat.mod_eq_of_lt hplt
    have hnotlt : ¬ (c.bufSize < (n + (sector - n % sector)) % 4294967296) := by
      rw [hpmod]; omega
    have hres : onReadCompletion s c ERROR_SUCCESS n sector true =
        ⟨⟨s.fileOffset, s.pendingIOs - 1 + 1, s.readComplete, s.errOccurred,
          s.bytesReadTotal + n, s.bytesWrittenTotal⟩,
         ⟨memsetZero c.buf n (sector - n % sector), c.bufSize, c.readOffset,
          n + (sector - n % sector), false⟩,
         some (n + (sector - n % sector))⟩ := by
      simp [onReadCompletion, issueWrite, ERROR_SUCCESS, ERROR_HANDLE_EOF,
        hn, hs, hmod, herr, hnotlt, hpmod, hpB]
    refine ⟨n + (sector - n % sector), ?_⟩
    rw [hres]
    refine ⟨rfl, rfl, by omega, hpB, ⟨n / sector + 1, hpmul⟩, ?_, rfl, ?_⟩
    · intro q hq hnq
      obtain ⟨mq, hmq⟩ := hq
      rw [hpmul, hmq]
      have hdmq : n / sector < mq := by
        refine Nat.lt_of_mul_lt_mul_left (a := sector) ?_
        calc sector * (n / sector) < n := hdn
          _ ≤ sector * mq := by rw [← hmq]; exact hnq
      exact Nat.mul_le_mul_left sector hdmq
    · have harg : sector - n % sector = n + (sector - n % sector) - n := by
        omega
      rw [← harg]


/-- C1: Offset allocator contract.  Inside IssueRead, for block size b > 0 and
total source size T, the claimed offset is the value of fileOffset before a
single fetch-and-add of b; a claim at or past T reports EOF (IssueRead
returns no read) and sets readComplete, and otherwise the read length is
min(b, T - offset).  Over any sequence of claims starting from fileOffset 0,
every claimed offset is a multiple of b and the claimed intervals are
pairwise disjoint. -/
theorem claim_offset_allocator (b : Nat) (T : Int) (hb : 0 < b) :
    offsetAllocatorSpec b T := by
  refine ⟨?_, ?_, ?_⟩
  · intro s hrc herr
    exact ⟨fun hT => issueReadClaim_eq_eof s b T hrc herr hT,
           fun hT => issueReadClaim_eq_claim s b T hb hrc herr hT⟩
  · intro c submitErr s hrc herr hT
    simp [issueRead, issueReadClaim_eq_eof s b T hrc herr hT]
  · intro n
    constructor
    · intro p hp
      obtain ⟨_, _, k, hk⟩ := runClaims_mem b hb T n initialState p hp rfl rfl
      refine Dvd.intro (k : Int) ?_
      rw [hk]
      simp [initialState]
      ring
    · have hord := runClaims_pairwise_ordered b hb T n initialState rfl rfl
      refine List.Pairwise.imp_of_mem ?_ hord
      intro p q hpmem hqmem hle
      obtain ⟨_, hp2, _⟩ := runClaims_mem b hb T n initialState p hpmem rfl rfl
      intro x hx
      obtain ⟨h1, h2, h3, h4⟩ := hx
      have hcast : (p.2 : Int) ≤ (b : Int) := by exact_mod_cast hp2
      omega

/-- Witness for C1: the offset-allocator contract at block size 4 and total
source size 10. -/
theorem claim_offset_allocator_witness : 0 < 4 ∧ offsetAllocatorSpec 4 10 :=
  ⟨by norm_num, claim_offset_allocator 4 10 (by norm_num)⟩

/-- C2: StartCopy returns true exactly when errOccurred is false after the
drain and the destination flush; in particular a failed final flush makes it
return false (and leaves errOccurred set) whatever the state after the
drain, including an error-free one. -/
theorem startCopy_success_iff_no_error :
    (∀ (s : EngineState) (flushOk : Bool),
        (startCopyFinish s flushOk).1 = true ↔
          (startCopyFinish s flushOk).2.errOccurred = false) ∧
    (∀ s : EngineState,
        (startCopyFinish s false).1 = false ∧
        (startCopyFinish s false).2.errOccurred = true) := by
  constructor
  · intro s flushOk
    cases flushOk <;> cases h : s.errOccurred <;> simp [startCopyFinish, h]
  · intro s
    simp [startCopyFinish]

/-- C3: Padding correctness in the read-completion handler: for a successful
read of n > 0 bytes with sector size s > 0 dividing the buffer size and
n within the buffer, the padded write length is the least multiple of the
sector size at least n, bytes [n, padded) of the buffer are zero-filled, and
the buffer-overflow error branch is not taken (errOccurred is unchanged and
the write is issued). -/
theorem read_padding_correct (s : EngineState) (c : IOContext)
    (n sector : Nat) (hsec : 0 < sector) (hdvd : sector ∣ c.bufSize)
    (hn : 0 < n) (hnB : n ≤ c.bufSize) (hB : c.bufSize < 4294967296)
    (hbuf : c.buf.length = c.bufSize) (herr : s.errOccurred = false) :
    paddingSpec s c n sector := by
  obtain ⟨p, h1, h2, h3, h4, h5, h6, h7, h8⟩ :=
    onReadCompletion_padding_core s c n sector (Nat.pos_iff_ne_zero.mp hsec)
      hdvd (Nat.pos_iff_ne_zero.mp hn) hnB hB herr
  have hlen : n + (p - n) ≤ c.buf.length := by rw [hbuf]; omega
  refine ⟨p, h1, h2, h3, h4, h5, h6, h7, ?_, ?_⟩
  · rw [h8]
    exact memsetZero_length c.buf n (p - n) hlen
  · intro i hin hip
    rw [h8]
    exact memsetZero_getD_zero c.buf n (p - n) i hin (by omega) hlen

/-- Witness for C3: a 5-byte read into an 8-byte buffer with sector size 4. -/
theorem read_padding_correct_witness :
    0 < 4 ∧ (4 : Nat) ∣ 8 ∧ 0 < 5 ∧ 5 ≤ 8 ∧ 8 < 4294967296 ∧
      ([1, 2, 3, 4, 5, 6, 7, 8] : List Nat).length = 8 ∧
      initialState.errOccurred = false ∧
      paddingSpec initialState ⟨[1, 2, 3, 4, 5, 6, 7, 8], 8, 0, 0, false⟩ 5 4 :=
  ⟨by norm_num, by norm_num, by norm_num, by norm_num, by norm_num, by decide,
   rfl,
   read_padding_correct initialState ⟨[1, 2, 3, 4, 5, 6, 7, 8], 8, 0, 0, false⟩
     5 4 (by norm_num) (by norm_num) (by norm_num) (by norm_num) (by norm_num)
     (by decide) rfl⟩

/-- C4 counterexample: an EOF completion with 1 transferred byte does not set
readComplete (the code sets it only when the transferred count is 0), while
the claim as stated demands readComplete on every EOF completion. -/
theorem eof_readComplete_counterexample :
    (onReadCompletion initialState ⟨[], 8, 0, 0, false⟩ ERROR_HANDLE_EOF 1 4096
        true).st.readComplete = false ∧
    (onReadCompletion initialState ⟨[], 8, 0, 0, false⟩ ERROR_HANDLE_EOF 1 4096
        true).cntxt.completed = true ∧
    (onReadCompletion initialState ⟨[], 8, 0, 0, false⟩ ERROR_HANDLE_EOF 1 4096
        true).st.errOccurred = false ∧
    (onReadCompletion initialState ⟨[], 8, 0, 0, false⟩ ERROR_HANDLE_EOF 1 4096
        true).writeCall = none := by
  decide

/-- C4 (amended): an EOF completion sets the context completed flag and
returns without touching errOccurred and without issuing a write, and sets
readComplete exactly when the transferred count is 0; a successful completion
of 0 bytes sets readComplete and completed and likewise issues no write. -/
theorem eof_completion_policy :
    (∀ (s : EngineState) (c : IOContext) (bytes sector : Nat) (w : Bool),
        onReadCompletion s c ERROR_HANDLE_EOF bytes sector w =
          ⟨⟨s.fileOffset, s.pendingIOs - 1,
            (if bytes = 0 then true else s.readComplete), s.errOccurred,
            s.bytesReadTotal, s.bytesWrittenTotal⟩,
           ⟨c.buf, c.bufSize, c.readOffset, c.bytesTransferred, true⟩,
           none⟩) ∧
    (∀ (s : EngineState) (c : IOContext) (sector : Nat) (w : Bool),
        onReadCompletion s c ERROR_SUCCESS 0 sector w =
          ⟨⟨s.fileOffset, s.pendingIOs - 1, true, s.errOccurred,
            s.bytesReadTotal, s.bytesWrittenTotal⟩,
           ⟨c.buf, c.bufSize, c.readOffset, c.bytesTransferred, true⟩,
           none⟩) := by
  constructor
  · intro s c bytes sector w
    by_cases hb0 : bytes = 0 <;>
      simp [onReadCompletion, ERROR_SUCCESS, ERROR_HANDLE_EOF, hb0]
  · intro s c sector w
    simp [onReadCompletion, ERROR_SUCCESS, ERROR_HANDLE_EOF]

/-- C5 counterexample: when the monitoring loop exits because errOccurred is
true, no wake-up APC is queued at all, even though worker 0 is still
joinable; the claim as stated demands the APC in both exit cases. -/
theorem wakeup_error_exit_counterexample :
    monitorLoopRunning ⟨0, 0, false, true, 0, 0⟩ = false ∧
    ([true] : List Bool).getD 0 false = true ∧
    0 ∉ wakeupTargets ⟨0, 0, false, true, 0, 0⟩ [true] := by
  decide

/-- C5 (amended): the wake-up APC is sent to every still-joinable worker only
in the error-free exit of the monitoring loop; when errOccurred is set, the
whole wake-up phase is skipped and no APC is queued. -/
theorem wakeup_targets_policy :
    (∀ (s : EngineState) (joinable : List Bool) (i : Nat),
        s.errOccurred = false → monitorLoopRunning s = false →
        i < joinable.length → joinable.getD i false = true →
        i ∈ wakeupTargets s joinable) ∧
    (∀ (s : EngineState) (joinable : List Bool),
        s.errOccurred = true → wakeupTargets s joinable = []) := by
  constructor
  · intro s joinable i herr _ hi hj
    simp only [wakeupTargets, herr, Bool.false_eq_true, if_false]
    rw [List.mem_filter]
    exact ⟨List.mem_range.mpr hi, by simpa using hj⟩
  · intro s joinable herr
    simp [wakeupTargets, herr]

/-- Witness for C5 (amended): an error-free quiescent exit wakes the single
joinable worker; an error exit wakes nobody. -/
theorem wakeup_targets_policy_witness :
    0 ∈ wakeupTargets ⟨0, 0, true, false, 0, 0⟩ [true] ∧
    wakeupTargets ⟨0, 0, false, true, 0, 0⟩ [true] = [] :=
  ⟨wakeup_targets_policy.1 ⟨0, 0, true, false, 0, 0⟩ [true] 0 rfl rfl
     (by norm_num) rfl,
   wakeup_targets_policy.2 ⟨0, 0, false, true, 0, 0⟩ [true] rfl⟩

/-- C6 counterexample: with a 0-byte source (and every other probe healthy)
Initialize returns false with the source-size failure exit, so the run
reports failure at initialization rather than success. -/
theorem empty_source_counterexample :
    initCopier 1 1 ⟨true, true, 0, 100, 512, true, [(true, 0)]⟩ =
      Except.error InitFailure.srcSizeUnknown := by
  rfl

/-- C6 (amended): a 0-byte source is rejected at initialization, because a
size of 0 is indistinguishable from a failed size probe; no claim is ever
made against a 0-byte source, but the run reports failure, not success. -/
theorem empty_source_rejected :
    (∀ (nThreads mb : Int) (env : InitEnv), env.srcSize = 0 →
        ∀ r, initCopier nThreads mb env ≠ Except.ok r) ∧
    (∀ (b k : Nat), 0 < b → runClaims b 0 k initialState = []) := by
  constructor
  · intro nT mb env h0 r
    simp only [initCopier]
    split_ifs <;> simp_all
  · intro b k hb
    cases k with
    | zero => rfl
    | succ k =>
        simp only [runClaims,
          issueReadClaim_eq_eof initialState b 0 rfl rfl (le_refl 0)]
        exact runClaims_nil_of_readComplete b 0 k _ rfl

/-- Witness for C6 (amended): the concrete 0-byte-source environment is
rejected, and three claim steps against a 0-byte source claim nothing. -/
theorem empty_source_rejected_witness :
    (∀ r, initCopier 1 1 ⟨true, true, 0, 100, 512, true, [(true, 0)]⟩ ≠
        Except.ok r) ∧
    runClaims 4 0 3 initialState = [] :=
  ⟨empty_source_rejected.1 1 1 ⟨true, true, 0, 100, 512, true, [(true, 0)]⟩
     rfl,
   empty_source_rejected.2 4 3 (by norm_num)⟩

theorem initCopier_capacity_error (nThreads mb : Int) (env : InitEnv)
    (hcon : initCopier nThreads mb env =
      Except.error InitFailure.capacityTooSmall) :
    env.destCapacity < env.srcSize := by
  rw [initCopier] at hcon
  split_ifs at hcon <;> try assumption
  all_goals simp at hcon
  all_goals repeat split at hcon
  all_goals try simp at hcon
  all_goals
    rename_i f hf
    subst hcon
    exact absurd hf (checkBuffers_ne_capacity _ _)

/-- C7: Initialize never succeeds when the destination capacity is strictly
smaller than the source size, and it never takes the capacity-mismatch exit
when the capacity equals the source size. -/
theorem capacity_check_boundary (nThreads mb : Int) (env : InitEnv) :
    (env.destCapacity < env.srcSize →
        ∀ r, initCopier nThreads mb env ≠ Except.ok r) ∧
    (env.destCapacity = env.srcSize →
        initCopier nThreads mb env ≠
          Except.error InitFailure.capacityTooSmall) := by
  constructor
  · intro hlt r
    simp only [initCopier]
    split_ifs <;> simp_all
  · intro heq hcon
    have hlt := initCopier_capacity_error nThreads mb env hcon
    rw [heq] at hlt
    exact lt_irrefl _ hlt

/-- Witness for C7: a destination one byte short is rejected; an exactly
matching destination is not rejected via the capacity exit. -/
theorem capacity_check_boundary_witness :
    (∀ r, initCopier 1 1 ⟨true, true, 100, 99, 512, true, [(true, 0)]⟩ ≠
        Except.ok r) ∧
    initCopier 1 1 ⟨true, true, 100, 100, 512, true, [(true, 0)]⟩ ≠
      Except.error InitFailure.capacityTooSmall :=
  ⟨(capacity_check_boundary 1 1
      ⟨true, true, 100, 99, 512, true, [(true, 0)]⟩).1 (by decide),
   (capacity_check_boundary 1 1
      ⟨true, true, 100, 100, 512, true, [(true, 0)]⟩).2 rfl⟩

/-- C8 counterexample: on an immediate write-submission failure the context
completed flag is left false (the claim as stated demands that it be set):
IssueWrite clears it on entry and neither IssueWrite nor the calling
read-completion handler sets it on the failure path. -/
theorem issueWrite_completed_counterexample :
    (issueWrite initialState ⟨[], 8, 0, 0, true⟩ 512 false).cntxt.completed
        = false ∧
    (issueWrite initialState ⟨[], 8, 0, 0, true⟩ 512 false).st.errOccurred
        = true ∧
    (issueWrite initialState ⟨[], 8, 0, 0, true⟩ 512 false).ret = false := by
  decide

/-- C8 (amended): for a call to IssueWrite from a state with no prior error,
pendingIOs is incremented before submission; on immediate failure
errOccurred is set, pendingIOs is decremented back to its old value, and
the context completed flag is left false, not set. -/
theorem issueWrite_failure_effects (s : EngineState) (c : IOContext)
    (bytes : Nat) (herr : s.errOccurred = false) :
    issueWriteFailureSpec s c bytes := by
  unfold issueWriteFailureSpec
  refine ⟨?_, ?_, ?_, ?_⟩ <;> simp [issueWrite, herr]

/-- Witness for C8 (amended): the failure effects at a concrete state and
context. -/
theorem issueWrite_failure_effects_witness :
    initialState.errOccurred = false ∧
    issueWriteFailureSpec initialState ⟨[], 8, 0, 0, true⟩ 512 :=
  ⟨rfl, issueWrite_failure_effects initialState ⟨[], 8, 0, 0, true⟩ 512 rfl⟩

/-- C9 counterexample: blockSizeMB = 4097 is accepted by Initialize with a
byte block size of 2^20 (the 32-bit product 4097 * 2^20 wraps to 2^20),
violating the claimed equality blockSize = blockSizeMB * 2^20. -/
theorem blockSize_wrap_counterexample :
    initCopier 1 4097 ⟨true, true, 1000000, 2000000, 512, true, [(true, 0)]⟩ =
      Except.ok ⟨1048576, 1000000, 2000000, 512⟩ ∧
    (1048576 : Nat) ≠ 4097 * 1048576 := by
  exact ⟨rfl, by norm_num⟩

/-- C9 (amended): the engine byte block size is blockSizeMB * 2^20 reduced
mod 2^32; the claimed equality with blockSizeMB * 2^20 holds exactly on the
non-wrapping range 1 <= blockSizeMB <= 4095; 4096 wraps to 0 and is rejected
by the nonzero check, while 4097 wraps to 2^20 and is accepted with the
wrong block size. -/
theorem blockSize_conversion (mb : Int) (h1 : 1 ≤ mb) (h2 : mb ≤ 4095) :
    (blockSizeBytes mb : Int) = mb * 1048576 ∧
    blockSizeBytes 4096 = 0 ∧
    blockSizeBytes 4097 = 1048576 := by
  refine ⟨?_, by decide, by decide⟩
  unfold blockSizeBytes dwordOfInt
  omega

/-- Witness for C9 (amended): the conversion at blockSizeMB = 7. -/
theorem blockSize_conversion_witness :
    (1 : Int) ≤ 7 ∧ (7 : Int) ≤ 4095 ∧
      ((blockSizeBytes 7 : Int) = 7 * 1048576 ∧
       blockSizeBytes 4096 = 0 ∧ blockSizeBytes 4097 = 1048576) :=
  ⟨by norm_num, by norm_num, blockSize_conversion 7 (by norm_num) (by norm_num)⟩

/-- C10: when the engine destination sector size is 0, the read-completion
handler behaves exactly as if the sector size were 4096 (it does not fail),
and for a successful in-bounds read it reaches the write issuance with a
length that is a multiple of 4096, leaving errOccurred unchanged. -/
theorem sector_fallback :
    (∀ (s : EngineState) (c : IOContext) (e bytes : Nat) (w : Bool),
        onReadCompletion s c e bytes 0 w =
          onReadCompletion s c e bytes 4096 w) ∧
    (∀ (s : EngineState) (c : IOContext) (bytes : Nat),
        s.errOccurred = false → 0 < bytes → bytes ≤ c.bufSize →
        (4096 : Nat) ∣ c.bufSize → c.bufSize < 4294967296 →
        fallbackPaddedSpec s c bytes) := by
  have hzero : ∀ (s : EngineState) (c : IOContext) (e bytes : Nat) (w : Bool),
      onReadCompletion s c e bytes 0 w = onReadCompletion s c e bytes 4096 w :=
    fun s c e bytes w => rfl
  refine ⟨hzero, ?_⟩
  intro s c bytes herr hb hbB hdvd hB
  unfold fallbackPaddedSpec
  rw [hzero]
  obtain ⟨p, h1, h2, h3, h4, h5, h6, h7, h8⟩ :=
    onReadCompletion_padding_core s c bytes 4096 (by norm_num) hdvd
      (Nat.pos_iff_ne_zero.mp hb) hbB hB herr
  exact ⟨p, h1, h5, h7⟩

/-- Witness for C10: a 512-byte read with a 4096-byte buffer and a zero
engine sector size. -/
theorem sector_fallback_witness :
    initialState.errOccurred = false ∧ 0 < 512 ∧ 512 ≤ 4096 ∧
      (4096 : Nat) ∣ 4096 ∧ 4096 < 4294967296 ∧
      fallbackPaddedSpec initialState ⟨[], 4096, 0, 0, false⟩ 512 :=
  ⟨rfl, by norm_num, by norm_num, by norm_num, by norm_num,
   sector_fallback.2 initialState ⟨[], 4096, 0, 0, false⟩ 512 rfl
     (by norm_num) (by norm_num) (by norm_num) (by norm_num)⟩

end BlockCopier
